import Mathlib

/-!
Verification of the book-metadata extraction script (src/index.py).

The script issues one HTTP GET, decodes the response body as JSON, and
extracts three fields from the first document of the `docs` list:
the title (line 10), the first author name (line 12), and the first
ISBN entry of character length 10 (lines 14-19), then prints the three
values separated by line breaks (line 21).

We embed the decoded JSON structure and the Python dynamic semantics the
script relies on: `dict.get` (returning None on a missing key),
subscripting with `[0]`, `len`, iteration with `for`, and the string
rendering performed by `print`.  Fallible operations return
`Except PyErr`, with `PyErr` classifying the Python exception raised.
-/

/-- Decoded JSON values, as produced by `response.json()`.  Python maps a
missing-key `dict.get` to `None`, which coincides with decoded JSON
`null`, so both are `Json.null`.  Numeric fields are modelled as
integers; no field the script touches is numeric. -/
inductive Json where
  | null : Json
  | bool : Bool → Json
  | num : Int → Json
  | str : String → Json
  | arr : List Json → Json
  | obj : List (String × Json) → Json
deriving Repr

/-- Python exception classes the modelled operations can raise. -/
inductive PyErr where
  | typeError : PyErr
  | indexError : PyErr
  | keyError : PyErr
  | attributeError : PyErr
deriving Repr, DecidableEq

/-- Python `x.get(k)` for `x` a decoded value: on a dict it returns the
value bound to `k`, or `None` when `k` is missing; on any other value
the attribute lookup of `get` raises `AttributeError`. -/
def dictGet : Json → String → Except PyErr Json
  | .obj kvs, k => .ok ((List.lookup k kvs).getD .null)
  | _, _ => .error .attributeError

/-- Python `x[0]`: first element of a list (`IndexError` when empty),
first character of a string (as a one-character string), `KeyError` on a
dict (integer key lookup on string-keyed decoded dicts), `TypeError` on
`None`, booleans and numbers (not subscriptable). -/
def index0 : Json → Except PyErr Json
  | .arr [] => .error .indexError
  | .arr (x :: _) => .ok x
  | .str s =>
    match s.data with
    | [] => .error .indexError
    | c :: _ => .ok (.str (String.mk [c]))
  | .obj _ => .error .keyError
  | _ => .error .typeError

/-- Python `len(x)`: defined on strings, lists and dicts; `TypeError`
otherwise. -/
def pyLen : Json → Except PyErr Nat
  | .str s => .ok s.length
  | .arr xs => .ok xs.length
  | .obj kvs => .ok kvs.length
  | _ => .error .typeError

/-- Python `for i in x`: lists yield their elements, strings their
characters (as one-character strings), dicts their keys; `None`,
booleans and numbers are not iterable (`TypeError`). -/
def toIter : Json → Except PyErr (List Json)
  | .arr xs => .ok xs
  | .str s => .ok (s.data.map (fun c => .str (String.mk [c])))
  | .obj kvs => .ok (kvs.map (fun kv => .str kv.1))
  | _ => .error .typeError

/-- The ISBN scan loop of lines 16-19: starting from the current value
`acc` of `isbn_string` (initially `""`), walk the iterated elements in
order; the first element whose `len` is 10 is assigned and the loop
breaks; if `len` raises, that exception propagates; if the loop
completes, `isbn_string` keeps the value `acc`. -/
def scanLoop : List Json → Json → Except PyErr Json
  | [], acc => .ok acc
  | i :: rest, acc =>
    match pyLen i with
    | .error e => .error e
    | .ok l => if l == 10 then .ok i else scanLoop rest acc

/-- The triple of values the script prints: `book_title` (line 10),
`author_name` (line 12) and `isbn_string` (lines 14-19). -/
structure Extracted where
  title : Json
  author : Json
  isbn : Json
deriving Repr

/-- Lines 10-19 of the script, applied to `first_result`:
`book_title = first_result.get("title")`,
`author_name = first_result.get("author_name")[0]`, then the ISBN scan
over `first_result.get("isbn")`. -/
def docExtract (first_result : Json) : Except PyErr Extracted :=
  (dictGet first_result "title").bind (fun book_title =>
  (dictGet first_result "author_name").bind (fun authors =>
  (index0 authors).bind (fun author_name =>
  (dictGet first_result "isbn").bind (fun isbn_results =>
  (toIter isbn_results).bind (fun iter =>
  (scanLoop iter (.str "")).bind (fun isbn_string =>
  Except.ok ⟨book_title, author_name, isbn_string⟩))))))

/-- Lines 8-19 of the script: `first_result = data.get("docs")[0]`
followed by the field extraction from that document. -/
def extract (data : Json) : Except PyErr Extracted :=
  (dictGet data "docs").bind (fun docs =>
  (index0 docs).bind (fun first_result =>
  docExtract first_result))

/-- An HTTP response as `requests.get` returns it: a status code and the
decoded JSON body.  The script reads only `response.json()` (line 7),
never the status code. -/
structure HttpResponse where
  status : Nat
  body : Json

/-- Lines 7-19 of the script, from the HTTP response onward:
`data = response.json()` then the extraction. -/
def pipeline (r : HttpResponse) : Except PyErr Extracted :=
  extract r.body

/-- Running the extraction twice on the same decoded body, as in
property P6 of the specification. -/
def extractTwice (data : Json) : Except PyErr Extracted × Except PyErr Extracted :=
  (extract data, extract data)

/-- The selection rule the specification states for the ISBN scan: the
first string of character length exactly 10, or the empty string when
none exists. -/
def first10 (ss : List String) : String :=
  (List.find? (fun s => s.length == 10) ss).getD ""

/-- The single-quote character, used by Python string repr. -/
def squote : Char := Char.ofNat 39

/-- The double-quote character. -/
def dquote : Char := Char.ofNat 34

/-- Escaping of one character inside a Python string repr delimited by
the quote character `q`: backslash, the delimiter, and the common
control characters are escaped; other characters pass through. -/
def pyEscape (q : Char) (c : Char) : List Char :=
  if c = '\\' then ['\\', '\\']
  else if c = q then ['\\', q]
  else if c = '\n' then ['\\', 'n']
  else if c = '\r' then ['\\', 'r']
  else if c = '\t' then ['\\', 't']
  else [c]

/-- Python `repr` of a string: single-quoted, unless the text contains a
single quote and no double quote, in which case double-quoted. -/
def pyStrRepr (s : String) : String :=
  let q := if squote ∈ s.data ∧ dquote ∉ s.data then dquote else squote
  String.mk (q :: (s.data.map (pyEscape q)).flatten ++ [q])

mutual

/-- Python `repr` of a decoded JSON value (used by `str` on containers). -/
def pyRepr : Json → String
  | .null => "None"
  | .bool true => "True"
  | .bool false => "False"
  | .num n => toString n
  | .str s => pyStrRepr s
  | .arr xs => "[" ++ String.intercalate ", " (pyReprList xs) ++ "]"
  | .obj kvs => "\x7b" ++ String.intercalate ", " (pyReprPairs kvs) ++ "\x7d"

/-- `repr` of the elements of a list value, in order. -/
def pyReprList : List Json → List String
  | [] => []
  | x :: xs => pyRepr x :: pyReprList xs

/-- `repr` of the key-value pairs of a dict value, in order. -/
def pyReprPairs : List (String × Json) → List String
  | [] => []
  | (k, v) :: kvs => (pyStrRepr k ++ ": " ++ pyRepr v) :: pyReprPairs kvs

end

/-- Python `str(x)`, the rendering `print` applies to each argument:
the text itself for a string, `repr` otherwise (`None`, booleans,
numbers, containers). -/
def pyStr : Json → String
  | .str s => s
  | j => pyRepr j

/-- Line 21 of the script:
`print(book_title, author_name, isbn_string, sep='\n')` writes the
three renderings joined by the separator, followed by the default
terminator `'\n'`. -/
def printOut (t a i : Json) : String :=
  pyStr t ++ "\n" ++ pyStr a ++ "\n" ++ pyStr i ++ "\n"

/-- The text the script writes for an extracted triple. -/
def renderOutput (e : Extracted) : String :=
  printOut e.title e.author e.isbn

/-- Split a character list at each line-break character; `acc` holds the
characters of the current line, in reverse. -/
def splitLinesAux : List Char → List Char → List (List Char)
  | [], acc => [acc.reverse]
  | c :: rest, acc =>
    if c = '\n' then acc.reverse :: splitLinesAux rest [] else splitLinesAux rest (c :: acc)

/-- The lines of a piece of terminal output that ends with a line
break: the chunks between line breaks, without the empty chunk after
the final break. -/
def outputLines (s : String) : List String :=
  (List.map (fun l => String.mk l) (splitLinesAux s.data [])).dropLast

theorem except_bind_ok {α β : Type} (a : α) (f : α → Except PyErr β) :
    Except.bind (Except.ok a) f = f a := rfl

theorem except_bind_error {α β : Type} (e : PyErr) (f : α → Except PyErr β) :
    Except.bind (Except.error e : Except PyErr α) f = Except.error e := rfl

theorem string_mk_data (s : String) : String.mk s.data = s := rfl

theorem scanLoop_map_str (ss : List String) (acc : Json) :
    scanLoop (List.map Json.str ss) acc =
      Except.ok ((List.find? (fun s => s.length == 10) ss).elim acc Json.str) := by
  induction ss with
  | nil => rfl
  | cons s ss ih =>
    simp only [List.map_cons, scanLoop, pyLen, List.find?]
    cases h : s.length == 10 <;> simp [h, ih]

theorem scanLoop_map_str_empty (ss : List String) :
    scanLoop (List.map Json.str ss) (Json.str "") = Except.ok (Json.str (first10 ss)) := by
  rw [scanLoop_map_str]
  unfold first10
  cases List.find? (fun s => s.length == 10) ss <;> simp

theorem docExtract_obj (kvs : List (String × Json)) :
    docExtract (Json.obj kvs) =
      (index0 ((List.lookup "author_name" kvs).getD .null)).bind (fun author_name =>
      (toIter ((List.lookup "isbn" kvs).getD .null)).bind (fun iter =>
      (scanLoop iter (.str "")).bind (fun isbn_string =>
      Except.ok ⟨(List.lookup "title" kvs).getD .null, author_name, isbn_string⟩))) := by
  simp [docExtract, dictGet, except_bind_ok]

theorem splitLinesAux_ne_nil (l acc : List Char) : splitLinesAux l acc ≠ [] := by
  induction l generalizing acc with
  | nil => simp [splitLinesAux]
  | cons c rest ih =>
    by_cases h : c = '\n' <;> simp [splitLinesAux, h, ih]

theorem splitLinesAux_append (xs rest acc : List Char) (h : '\n' ∉ xs) :
    splitLinesAux (xs ++ '\n' :: rest) acc = (acc.reverse ++ xs) :: splitLinesAux rest [] := by
  induction xs generalizing acc with
  | nil => simp [splitLinesAux]
  | cons c xs ih =>
    have hc : ¬ c = '\n' := fun hh => h (by simp [hh])
    have hx : '\n' ∉ xs := fun hh => h (List.mem_cons_of_mem _ hh)
    simp [splitLinesAux, hc, ih _ hx]

theorem outputLines_printOut (t a i : Json)
    (ht : '\n' ∉ (pyStr t).data) (ha : '\n' ∉ (pyStr a).data) (hi : '\n' ∉ (pyStr i).data) :
    outputLines (printOut t a i) = [pyStr t, pyStr a, pyStr i] := by
  unfold outputLines printOut
  have hdata : (pyStr t ++ "\n" ++ pyStr a ++ "\n" ++ pyStr i ++ "\n").data
      = (pyStr t).data ++ '\n' :: ((pyStr a).data ++ '\n' :: ((pyStr i).data ++ '\n' :: [])) := by
    simp [String.data_append]
  rw [hdata, splitLinesAux_append _ _ _ ht, splitLinesAux_append _ _ _ ha,
    splitLinesAux_append _ _ _ hi]
  simp [splitLinesAux, string_mk_data]

theorem docExtract_ok_title (kvs : List (String × Json)) (e : Extracted)
    (hok : docExtract (Json.obj kvs) = Except.ok e) :
    e.title = (List.lookup "title" kvs).getD .null := by
  rw [docExtract_obj] at hok
  cases hA : index0 ((List.lookup "author_name" kvs).getD .null) with
  | error err => rw [hA] at hok; simp [except_bind_error] at hok
  | ok a =>
    rw [hA] at hok
    simp only [except_bind_ok] at hok
    cases hI : toIter ((List.lookup "isbn" kvs).getD .null) with
    | error err => rw [hI] at hok; simp [except_bind_error] at hok
    | ok it =>
      rw [hI] at hok
      simp only [except_bind_ok] at hok
      cases hS : scanLoop it (Json.str "") with
      | error err => rw [hS] at hok; simp [except_bind_error] at hok
      | ok isbn =>
        rw [hS] at hok
        simp only [except_bind_ok] at hok
        injection hok with h
        rw [← h]

/-- Claim C1: for every sequence of identifier strings bound to the
`isbn` key of the first document, whenever the extraction of that
document succeeds the ISBN result is the first string of the sequence
whose character length is exactly 10, and the empty string when no
entry has length 10; the scan selects the first match in sequence
order. -/
theorem isbn_scan_selects_first_length10 (kvs : List (String × Json)) (ss : List String)
    (e : Extracted)
    (hisbn : List.lookup "isbn" kvs = some (Json.arr (List.map Json.str ss)))
    (hok : docExtract (Json.obj kvs) = Except.ok e) :
    e.isbn = Json.str (first10 ss) := by
  rw [docExtract_obj, hisbn] at hok
  cases hA : index0 ((List.lookup "author_name" kvs).getD .null) with
  | error err => rw [hA] at hok; simp [except_bind_error] at hok
  | ok a =>
    rw [hA] at hok
    simp only [Option.getD_some, toIter, scanLoop_map_str_empty, except_bind_ok] at hok
    injection hok with h
    rw [← h]

theorem isbn_scan_selects_first_length10_witness :
    (⟨Json.str "T", Json.str "A", Json.str "0575094194"⟩ : Extracted).isbn
      = Json.str (first10 ["9780575094195", "0575094194", "1234567890123"]) :=
  isbn_scan_selects_first_length10
    [("title", Json.str "T"), ("author_name", Json.arr [Json.str "A"]),
     ("isbn", Json.arr [Json.str "9780575094195", Json.str "0575094194",
       Json.str "1234567890123"])]
    ["9780575094195", "0575094194", "1234567890123"] _ rfl rfl

/-- Claim C2, counterexample: with `isbn` missing from the first
document (and author extraction succeeding), the extractor does not
yield an empty ISBN string — iterating over the `None` returned by
`first_result.get("isbn")` raises `TypeError`, terminating fatally. -/
theorem isbn_missing_fatal_cex :
    docExtract (Json.obj [("title", Json.str "T"), ("author_name", Json.arr [Json.str "A"])])
      = Except.error PyErr.typeError := rfl

/-- Claim C2, amended: when `isbn` is present as an empty sequence the
extractor does not fail and yields the empty string as the ISBN result;
when `isbn` is missing, the `for` loop iterates over `None` and the
extractor terminates fatally with a type error. -/
theorem isbn_empty_tolerated_but_missing_fatal (kvs : List (String × Json))
    (a : Json) (as : List Json)
    (hauthor : List.lookup "author_name" kvs = some (Json.arr (a :: as))) :
    (List.lookup "isbn" kvs = some (Json.arr []) →
      ∃ e, docExtract (Json.obj kvs) = Except.ok e ∧ e.isbn = Json.str "") ∧
    (List.lookup "isbn" kvs = none →
      docExtract (Json.obj kvs) = Except.error PyErr.typeError) := by
  constructor
  · intro hisbn
    refine ⟨⟨(List.lookup "title" kvs).getD .null, a, Json.str ""⟩, ?_, rfl⟩
    rw [docExtract_obj, hauthor, hisbn]
    simp [index0, toIter, scanLoop, except_bind_ok]
  · intro hisbn
    rw [docExtract_obj, hauthor, hisbn]
    simp [index0, toIter, except_bind_ok, except_bind_error]

theorem isbn_empty_tolerated_but_missing_fatal_witness :
    (∃ e, docExtract (Json.obj [("author_name", Json.arr [Json.str "A"]),
        ("isbn", Json.arr [])]) = Except.ok e ∧ e.isbn = Json.str "") ∧
    docExtract (Json.obj [("author_name", Json.arr [Json.str "A"])])
      = Except.error PyErr.typeError :=
  ⟨(isbn_empty_tolerated_but_missing_fatal
      [("author_name", Json.arr [Json.str "A"]), ("isbn", Json.arr [])]
      (Json.str "A") [] rfl).1 rfl,
   (isbn_empty_tolerated_but_missing_fatal
      [("author_name", Json.arr [Json.str "A"])]
      (Json.str "A") [] rfl).2 rfl⟩

/-- Claim C3, counterexample: on the decoded body with no `docs` key the
extractor fails, but with a type error (`None` is not subscriptable),
not an index or key error as the claim states. -/
theorem docs_missing_error_class_cex :
    extract (Json.obj []) = Except.error PyErr.typeError ∧
    PyErr.typeError ≠ PyErr.indexError ∧ PyErr.typeError ≠ PyErr.keyError :=
  ⟨rfl, fun h => PyErr.noConfusion h, fun h => PyErr.noConfusion h⟩

/-- Claim C3, amended: for every decoded mapping in which `docs` is
missing, and for every one in which `docs` is an empty sequence, the
extractor fails fatally rather than returning a default — with a type
error when `docs` is missing (subscripting `None`) and an index error
when `docs` is empty. -/
theorem docs_missing_or_empty_fatal (kvs : List (String × Json)) :
    (List.lookup "docs" kvs = none →
      extract (Json.obj kvs) = Except.error PyErr.typeError) ∧
    (List.lookup "docs" kvs = some (Json.arr []) →
      extract (Json.obj kvs) = Except.error PyErr.indexError) := by
  constructor <;> intro h <;>
    simp [extract, dictGet, h, index0, except_bind_ok, except_bind_error]

theorem docs_missing_or_empty_fatal_witness :
    extract (Json.obj []) = Except.error PyErr.typeError ∧
    extract (Json.obj [("docs", Json.arr [])]) = Except.error PyErr.indexError :=
  ⟨(docs_missing_or_empty_fatal []).1 rfl,
   (docs_missing_or_empty_fatal [("docs", Json.arr [])]).2 rfl⟩

/-- Claim C4: for every first document in which `author_name` is
missing, and for every one in which `author_name` is an empty sequence,
the extractor fails fatally rather than yielding a default author value
(a type error when missing, an index error when empty). -/
theorem author_missing_or_empty_fatal (kvs : List (String × Json)) :
    (List.lookup "author_name" kvs = none →
      docExtract (Json.obj kvs) = Except.error PyErr.typeError) ∧
    (List.lookup "author_name" kvs = some (Json.arr []) →
      docExtract (Json.obj kvs) = Except.error PyErr.indexError) := by
  constructor <;> intro h <;> rw [docExtract_obj, h] <;>
    simp [index0, except_bind_error]

theorem author_missing_or_empty_fatal_witness :
    docExtract (Json.obj [("title", Json.str "T")]) = Except.error PyErr.typeError ∧
    docExtract (Json.obj [("author_name", Json.arr [])]) = Except.error PyErr.indexError :=
  ⟨(author_missing_or_empty_fatal [("title", Json.str "T")]).1 rfl,
   (author_missing_or_empty_fatal [("author_name", Json.arr [])]).2 rfl⟩

/-- Claim C5: for every first document with a non-empty `author_name`
sequence, whenever extraction succeeds the author result is exactly the
first element of that sequence, the rest being ignored. -/
theorem author_is_first_element (kvs : List (String × Json)) (a : Json) (as : List Json)
    (e : Extracted)
    (hauthor : List.lookup "author_name" kvs = some (Json.arr (a :: as)))
    (hok : docExtract (Json.obj kvs) = Except.ok e) :
    e.author = a := by
  rw [docExtract_obj, hauthor] at hok
  simp only [Option.getD_some, index0, except_bind_ok] at hok
  cases hI : toIter ((List.lookup "isbn" kvs).getD .null) with
  | error err => rw [hI] at hok; simp [except_bind_error] at hok
  | ok it =>
    rw [hI] at hok
    simp only [except_bind_ok] at hok
    cases hS : scanLoop it (Json.str "") with
    | error err => rw [hS] at hok; simp [except_bind_error] at hok
    | ok isbn =>
      rw [hS] at hok
      simp only [except_bind_ok] at hok
      injection hok with h
      rw [← h]

theorem author_is_first_element_witness :
    (⟨Json.null, Json.str "Philip K. Dick", Json.str ""⟩ : Extracted).author
      = Json.str "Philip K. Dick" :=
  author_is_first_element
    [("author_name", Json.arr [Json.str "Philip K. Dick", Json.str "Someone Else"]),
     ("isbn", Json.arr [])]
    (Json.str "Philip K. Dick") [Json.str "Someone Else"] _ rfl rfl

/-- Claim C6: for every first document in which `title` is absent, the
title lookup itself does not fail — it yields the absent value `None` —
and the extraction of the remaining fields proceeds: with a non-empty
`author_name` and a string-sequence `isbn` the whole extraction
succeeds, carrying the absent title. -/
theorem title_missing_tolerated (kvs : List (String × Json)) (a : Json) (as : List Json)
    (ss : List String)
    (htitle : List.lookup "title" kvs = none)
    (hauthor : List.lookup "author_name" kvs = some (Json.arr (a :: as)))
    (hisbn : List.lookup "isbn" kvs = some (Json.arr (List.map Json.str ss))) :
    dictGet (Json.obj kvs) "title" = Except.ok Json.null ∧
    ∃ e, docExtract (Json.obj kvs) = Except.ok e ∧ e.title = Json.null := by
  refine ⟨by simp [dictGet, htitle], ⟨Json.null, a, Json.str (first10 ss)⟩, ?_, rfl⟩
  rw [docExtract_obj, hauthor, hisbn]
  simp [htitle, index0, toIter, scanLoop_map_str_empty, except_bind_ok]

theorem title_missing_tolerated_witness :
    dictGet (Json.obj [("author_name", Json.arr [Json.str "A"]),
        ("isbn", Json.arr [Json.str "0441116802"])]) "title" = Except.ok Json.null ∧
    ∃ e, docExtract (Json.obj [("author_name", Json.arr [Json.str "A"]),
        ("isbn", Json.arr [Json.str "0441116802"])]) = Except.ok e ∧ e.title = Json.null :=
  title_missing_tolerated
    [("author_name", Json.arr [Json.str "A"]), ("isbn", Json.arr [Json.str "0441116802"])]
    (Json.str "A") [] ["0441116802"] rfl rfl rfl

/-- Claim C7, counterexample: an extracted triple whose title contains a
line-break character is reachable (the title string of the first
document may contain one), and for it the script writes four lines, not
three; the second line is part of the title, not the author. -/
theorem output_three_lines_cex :
    extract (Json.obj [("docs", Json.arr [Json.obj
        [("title", Json.str "a\nb"), ("author_name", Json.arr [Json.str "A"]),
         ("isbn", Json.arr [])]])])
      = Except.ok ⟨Json.str "a\nb", Json.str "A", Json.str ""⟩ ∧
    outputLines (renderOutput ⟨Json.str "a\nb", Json.str "A", Json.str ""⟩)
      = ["a", "b", "A", ""] :=
  ⟨rfl, rfl⟩

/-- Claim C7, amended: the program writes the renderings of title,
author and ISBN in that order, joined by single line-break separators
and terminated by a line break, with no labels or other output;
whenever none of the three rendered values itself contains a line-break
character, this is exactly three lines: title, author name, ISBN
string. -/
theorem output_is_three_separated_lines (e : Extracted)
    (ht : '\n' ∉ (pyStr e.title).data) (ha : '\n' ∉ (pyStr e.author).data)
    (hi : '\n' ∉ (pyStr e.isbn).data) :
    renderOutput e
      = pyStr e.title ++ "\n" ++ pyStr e.author ++ "\n" ++ pyStr e.isbn ++ "\n" ∧
    outputLines (renderOutput e) = [pyStr e.title, pyStr e.author, pyStr e.isbn] :=
  ⟨rfl, outputLines_printOut e.title e.author e.isbn ht ha hi⟩

theorem output_is_three_separated_lines_witness :
    outputLines (renderOutput ⟨Json.str "Clans of the Alphane Moon",
        Json.str "Philip K. Dick", Json.str "0441116802"⟩)
      = ["Clans of the Alphane Moon", "Philip K. Dick", "0441116802"] :=
  (output_is_three_separated_lines
    ⟨Json.str "Clans of the Alphane Moon", Json.str "Philip K. Dick",
      Json.str "0441116802"⟩
    (by decide) (by decide) (by decide)).2

/-- Claim C8: extraction is a pure function of the decoded body — the
two components of running it twice on the same body are equal, so the
extracted triples of two runs on the same decoded JSON body are
identical. -/
theorem extract_runs_twice_identical (data : Json) :
    (extractTwice data).1 = (extractTwice data).2 := rfl

/-- Claim C9: the script never inspects the HTTP status code — two
responses with the same body and any two status codes lead to identical
subsequent behaviour of the pipeline. -/
theorem status_code_never_inspected (s1 s2 : Nat) (b : Json) :
    pipeline ⟨s1, b⟩ = pipeline ⟨s2, b⟩ := rfl

/-- Claim C10: for every first document without a `title` field whose
extraction nevertheless succeeds (so author extraction succeeded), the
first line the script writes is the four-character string rendered from
the absent value — the literal text None — and not an empty line. -/
theorem title_missing_first_line_is_None (kvs : List (String × Json)) (e : Extracted)
    (htitle : List.lookup "title" kvs = none)
    (hok : docExtract (Json.obj kvs) = Except.ok e) :
    (outputLines (renderOutput e)).head? = some "None" := by
  have htit : e.title = Json.null := by
    have h := docExtract_ok_title kvs e hok
    rwa [htitle] at h
  unfold renderOutput printOut outputLines
  rw [htit]
  have hdata : (pyStr Json.null ++ "\n" ++ pyStr e.author ++ "\n" ++ pyStr e.isbn ++ "\n").data
      = "None".data ++ '\n'
        :: ((pyStr e.author).data ++ '\n' :: ((pyStr e.isbn).data ++ '\n' :: [])) := by
    simp [String.data_append]
    rfl
  rw [hdata, splitLinesAux_append _ _ _ (by decide)]
  cases hL : splitLinesAux ((pyStr e.author).data ++ '\n'
      :: ((pyStr e.isbn).data ++ '\n' :: [])) [] with
  | nil => exact absurd hL (splitLinesAux_ne_nil _ _)
  | cons y l => simp [List.dropLast, string_mk_data]

theorem title_missing_first_line_is_None_witness :
    (outputLines (renderOutput ⟨Json.null, Json.str "Philip K. Dick",
        Json.str "0441116802"⟩)).head? = some "None" :=
  title_missing_first_line_is_None
    [("author_name", Json.arr [Json.str "Philip K. Dick"]),
     ("isbn", Json.arr [Json.str "0441116802"])] _ rfl rfl
